import Mathlib

/-!
Shallow embedding of the channel-broadcast / referral-link bot (`src/bot.py`).

The SQLite tables are modelled as Lean lists kept in rowid (insertion) order:
a full-table scan without `ORDER BY` returns rows in that order, and
`INSERT OR REPLACE` deletes every row that conflicts with the new row on a
UNIQUE constraint and appends the new row at the end (fresh rowid).
Randomness (`secrets.choice`) is modelled by an oracle `choice : Nat → Nat`
together with a position counter; timestamps (`datetime.now()`) by a `Nat`
supplied by the caller.  The messaging platform is modelled by oracles:
`getChat` resolves a chat id to a title or fails, membership lookup yields an
`Except` of the member status string, and message dispatch yields an `Except`
whose error carries the exception text.
-/

namespace Bot

/-- The alphabet `string.ascii_letters + string.digits` from the Python standard library. -/
def tokenAlphabet : List Char :=
  "abcdefghijklmnopqrstuvwxyzABCDEFGHIJKLMNOPQRSTUVWXYZ0123456789".toList

/-- A row of the `post_channels` table (rowid implicit in list position). -/
structure PostChannelRow where
  channel_id : String
  channel_name : String
  added_at : Nat
deriving DecidableEq, Repr

/-- A row of the `req_channels` table. -/
structure ReqChannelRow where
  channel_id : String
  channel_name : String
  registered_at : Nat
deriving DecidableEq, Repr

/-- A row of the `request_links` table. -/
structure RequestLinkRow where
  req_channel_id : String
  post_channel_id : String
  link_token : String
  link_title : String
  created_at : Nat
deriving DecidableEq, Repr

/-- The database state: the four tables of `Database.create_tables`.
The singleton `owner` table (fixed primary key 1) is an `Option`. -/
structure DB where
  post_channels : List PostChannelRow
  req_channels : List ReqChannelRow
  request_links : List RequestLinkRow
  owner : Option String
deriving DecidableEq, Repr

/-- A freshly created database: all tables empty. -/
def DB.empty : DB := ⟨[], [], [], none⟩

/-- Embeds `Database.add_owner`: `INSERT OR REPLACE INTO owner (id, user_id) VALUES (1, ?)`. -/
def DB.add_owner (db : DB) (user_id : String) : DB :=
  { db with owner := some user_id }

/-- Embeds `Database.get_owner`: `SELECT user_id FROM owner WHERE id = 1`, `None` if absent. -/
def DB.get_owner (db : DB) : Option String :=
  db.owner

/-- Embeds `Database.add_post_channel`: `INSERT OR REPLACE INTO post_channels ...`.
The UNIQUE constraint on `channel_id` makes REPLACE delete every row with the
same `channel_id`; the new row gets a fresh rowid, hence goes to the end. -/
def DB.add_post_channel (db : DB) (channel_id channel_name : String) (now : Nat) : DB :=
  { db with post_channels :=
      (db.post_channels.filter (fun r => r.channel_id != channel_id)) ++
        [⟨channel_id, channel_name, now⟩] }

/-- Embeds `Database.get_post_channels`: `SELECT channel_id, channel_name FROM post_channels`
(scan in rowid order). -/
def DB.get_post_channels (db : DB) : List (String × String) :=
  db.post_channels.map (fun r => (r.channel_id, r.channel_name))

/-- Embeds `Database.remove_post_channel`: deletes the post-channel row and every
`request_links` row referencing that `post_channel_id`. -/
def DB.remove_post_channel (db : DB) (channel_id : String) : DB :=
  { db with
      post_channels := db.post_channels.filter (fun r => r.channel_id != channel_id),
      request_links := db.request_links.filter (fun r => r.post_channel_id != channel_id) }

/-- Embeds `Database.add_req_channel`: `INSERT OR REPLACE INTO req_channels ...`
(UNIQUE on `channel_id`). -/
def DB.add_req_channel (db : DB) (channel_id channel_name : String) (now : Nat) : DB :=
  { db with req_channels :=
      (db.req_channels.filter (fun r => r.channel_id != channel_id)) ++
        [⟨channel_id, channel_name, now⟩] }

/-- Embeds `Database.get_req_channel`: `SELECT ... WHERE channel_id = ?` with `fetchone`. -/
def DB.get_req_channel (db : DB) (channel_id : String) : Option (String × String) :=
  ((db.req_channels.filter (fun r => r.channel_id == channel_id)).head?).map
    (fun r => (r.channel_id, r.channel_name))

/-- One token of `create_request_links`:
sixteen draws of `secrets.choice` over the alphanumeric alphabet, joined.
`choice` is the random oracle and `c` the position of the first draw;
each draw picks the alphabet character indexed by the oracle (mod 62). -/
def generateToken (choice : Nat → Nat) (c : Nat) : String :=
  String.mk ((List.range 16).map (fun i =>
    tokenAlphabet.getD (choice (c + i) % tokenAlphabet.length) 'a'))

/-- Embeds `INSERT OR REPLACE INTO request_links ...`: the only UNIQUE constraints are
the autoincrement primary key (never conflicting) and `link_token`, so REPLACE
deletes exactly the rows carrying the same token, then appends the new row.
There is no UNIQUE constraint on the pair (req_channel_id, post_channel_id). -/
def DB.insert_request_link (db : DB) (row : RequestLinkRow) : DB :=
  { db with request_links :=
      (db.request_links.filter (fun r => r.link_token != row.link_token)) ++ [row] }

/-- One iteration of the loop of `Database.create_request_links`: generate a
fresh token (advancing the oracle counter by the 16 draws) and insert the new
link row. -/
def createLinkStep (req_channel_id : String) (choice : Nat → Nat) (now : Nat)
    (acc : DB × Nat) (pc : String × String) : DB × Nat :=
  (acc.1.insert_request_link
    ⟨req_channel_id, pc.1, generateToken choice acc.2, pc.2, now⟩, acc.2 + 16)

/-- Embeds `Database.create_request_links`: reads the current post channels, then for
each generates a fresh token and inserts a link row; returns the updated
database, the advanced random-oracle counter, and `len(post_channels)`. -/
def DB.create_request_links (db : DB) (req_channel_id req_channel_name bot_username : String)
    (choice : Nat → Nat) (c : Nat) (now : Nat) : DB × Nat × Nat :=
  let pcs := db.get_post_channels
  let res := pcs.foldl (createLinkStep req_channel_id choice now) (db, c)
  (res.1, res.2, pcs.length)

/-- Embeds `Database.get_request_links`: the SQL join
`request_links rl JOIN post_channels pc ON rl.post_channel_id = pc.channel_id
WHERE rl.req_channel_id = ?`, scanned in `rl` rowid order, each result turned
into `(deep-link url, link_title, pc.channel_name)`. -/
def DB.get_request_links (db : DB) (req_channel_id bot_username : String) :
    List (String × String × String) :=
  (db.request_links.filter (fun r => r.req_channel_id == req_channel_id)).flatMap
    (fun r =>
      (db.post_channels.filter (fun pc => pc.channel_id == r.post_channel_id)).map
        (fun pc =>
          ("https://t.me/" ++ bot_username ++ "?start=" ++ r.link_token,
           r.link_title, pc.channel_name)))

/-- Embeds `Database.get_request_link_for_post`: `SELECT link_token ... WHERE
req_channel_id = ? AND post_channel_id = ?` with `fetchone` (first row in
rowid order), or `None`. -/
def DB.get_request_link_for_post (db : DB) (req_channel_id post_channel_id bot_username : String) :
    Option String :=
  ((db.request_links.filter (fun r =>
      r.req_channel_id == req_channel_id && r.post_channel_id == post_channel_id)).head?).map
    (fun r => "https://t.me/" ++ bot_username ++ "?start=" ++ r.link_token)

/-! ### Command handlers -/

/-- Chat types in which `/req` and `/send` are accepted. -/
def channelChatTypes : List String := ["group", "supergroup", "channel"]

/-- Member statuses accepted as admin by `/req` and `/send`. -/
def adminStatuses : List String := ["creator", "administrator"]

/-- Embeds `add_channel` (`/add`): owner gate (`str(user.id) != owner_id` — comparing
the caller id string with the owner column, which may be absent), usage check,
chat resolution via the platform, then the post-channel upsert.
Returns the updated database and the replies sent to the invoker. -/
def add_channel (db : DB) (user_id : String) (args : List String)
    (getChat : String → Except String String) (now : Nat) : DB × List String :=
  if db.get_owner ≠ some user_id then
    (db, ["❌ Only owner can use this command!"])
  else if args.isEmpty then
    (db, ["Usage: /add <channel_id>\nExample: /add -1001234567890"])
  else
    let channel_id := args.headD ""
    match getChat channel_id with
    | Except.ok title =>
        (db.add_post_channel channel_id title now,
         ["✅ Channel added successfully!\nName: " ++ title ++ "\nID: " ++ channel_id])
    | Except.error _ =>
        (db,
         ["❌ Failed to add channel. Make sure:\n1. Channel ID is correct\n2. Bot is added to channel\n3. Bot is admin in channel"])

/-- Embeds `list_channels` (`/list`): owner gate, then either the empty-list notice or
the removal keyboard, one `(label, callback_data)` button row per post channel
plus a cancel row.  Returns the replies and the keyboard rows. -/
def list_channels (db : DB) (user_id : String) :
    List String × List (List (String × String)) :=
  if db.get_owner ≠ some user_id then
    (["❌ Only owner can use this command!"], [])
  else
    let channels := db.get_post_channels
    if channels.isEmpty then
      (["📭 No post channels added yet!"], [])
    else
      let keyboard :=
        (channels.map (fun pc => [("🗑 " ++ pc.2, "remove_" ++ pc.1)])) ++
          [[("❌ Cancel", "cancel_list")]]
      (["📋 **Post Channels List**\n\nClick on any channel to remove it from the list:"],
       keyboard)

/-- Context of a `/send` invocation: the chat it is issued in, the result of
the platform membership lookup (`Except` error models the thrown exception),
the per-destination dispatch outcome oracle, and the bot username. -/
structure SendCtx where
  chat_type : String
  chat_id : String
  memberStatus : Except String String
  sendResult : String → Except String Unit

/-- Observable outcome of a `/send` invocation: the replies to the invoker,
the post-channel ids a message was dispatched to, and the database after. -/
structure SendOutput where
  replies : List String
  dispatched : List String
  db : DB
deriving DecidableEq, Repr

/-- One iteration of the dispatch loop of `send_command`: look up the referral
link for one destination (absent → failure entry, continue), otherwise dispatch
(an exception → failure entry with its text, otherwise count a success and
record the dispatch). -/
def sendStep (db : DB) (req_channel_id bot_username : String)
    (sendResult : String → Except String Unit)
    (acc : Nat × List String × List String) (pc : String × String) :
    Nat × List String × List String :=
  match db.get_request_link_for_post req_channel_id pc.1 bot_username with
  | none => (acc.1, acc.2.1 ++ [pc.2 ++ " (No link found)"], acc.2.2)
  | some _ =>
    match sendResult pc.1 with
    | Except.ok _ => (acc.1 + 1, acc.2.1, acc.2.2 ++ [pc.1])
    | Except.error e => (acc.1, acc.2.1 ++ [pc.2 ++ " (Error: " ++ e ++ ")"], acc.2.2)

/-- The dispatch loop of `send_command`, accumulating
(success_count, failed_channels, dispatched ids) over the post channels. -/
def sendLoop (db : DB) (req_channel_id bot_username : String)
    (sendResult : String → Except String Unit)
    (post_channels : List (String × String)) : Nat × List String × List String :=
  post_channels.foldl (sendStep db req_channel_id bot_username sendResult) (0, [], [])

/-- The final report text of `send_command`: the success count, then the
failure entries when any. -/
def buildReport (success_count : Nat) (failed_channels : List String) : String :=
  let base := "📊 **Send Report**\n\n✅ Successfully sent to: " ++
    toString success_count ++ " channels\n"
  if failed_channels.isEmpty then base
  else
    failed_channels.foldl (fun acc ch => acc ++ "• " ++ ch ++ "\n")
      (base ++ "\n❌ Failed to send to:\n")

/-- Embeds `send_command` (`/send`): chat-type gate, admin gate (lookup failure →
permission error), registration gate, empty-destination gate, then the
dispatch loop and the report.  The database is never written. -/
def send_command (ctx : SendCtx) (bot_username : String) (db : DB) : SendOutput :=
  if ¬ (channelChatTypes.contains ctx.chat_type) then
    ⟨["❌ This command can only be used in channels!"], [], db⟩
  else
    match ctx.memberStatus with
    | Except.error _ => ⟨["❌ Error checking permissions!"], [], db⟩
    | Except.ok status =>
      if ¬ (adminStatuses.contains status) then
        ⟨["❌ Only admins can use this command!"], [], db⟩
      else
        match db.get_req_channel ctx.chat_id with
        | none =>
            ⟨["❌ This channel is not registered as a req channel!\nUse /req first to register."],
             [], db⟩
        | some _ =>
          let post_channels := db.get_post_channels
          if post_channels.isEmpty then
            ⟨["❌ No post channels configured!"], [], db⟩
          else
            let res := sendLoop db ctx.chat_id bot_username ctx.sendResult post_channels
            ⟨[buildReport res.1 res.2.1], res.2.2, db⟩

/-! ### Helper lemmas -/

/-- Filtering for a key value after filtering it away yields nothing. -/
lemma filter_key_eq_of_ne {α : Type} (key : α → String) (id : String) (l : List α) :
    (l.filter (fun r => key r != id)).filter (fun r => key r == id) = [] := by
  rw [List.filter_eq_nil_iff]
  intro a ha
  rw [List.mem_filter] at ha
  have h2 := ha.2
  rw [bne_iff_ne] at h2
  simp [h2]

/-- Specification-side view of one destination of the dispatch loop: `none`
when the destination is dispatched successfully, `some entry` when it fails
(no link, or a dispatch exception), with the exact failure entry recorded. -/
def destinationOutcome (db : DB) (req_channel_id bot_username : String)
    (sendResult : String → Except String Unit) (pc : String × String) : Option String :=
  match db.get_request_link_for_post req_channel_id pc.1 bot_username with
  | none => some (pc.2 ++ " (No link found)")
  | some _ =>
    match sendResult pc.1 with
    | Except.ok _ => none
    | Except.error e => some (pc.2 ++ " (Error: " ++ e ++ ")")

/-- The dispatch loop processes each destination independently: the result is
determined per destination by `destinationOutcome`, successes counted, failure
entries collected in order, dispatched ids recorded in order. -/
lemma sendLoop_foldl (db : DB) (r bu : String) (send : String → Except String Unit)
    (pcs : List (String × String)) :
    ∀ acc : Nat × List String × List String,
      pcs.foldl (sendStep db r bu send) acc =
        (acc.1 + (pcs.filter (fun pc => (destinationOutcome db r bu send pc).isNone)).length,
         acc.2.1 ++ pcs.filterMap (destinationOutcome db r bu send),
         acc.2.2 ++ (pcs.filter
            (fun pc => (destinationOutcome db r bu send pc).isNone)).map Prod.fst) := by
  induction pcs with
  | nil => intro acc; simp
  | cons pc rest ih =>
    intro acc
    rw [List.foldl_cons]
    cases hl : db.get_request_link_for_post r pc.1 bu with
    | none =>
      have hstep : sendStep db r bu send acc pc
          = (acc.1, acc.2.1 ++ [pc.2 ++ " (No link found)"], acc.2.2) := by
        simp [sendStep, hl]
      have hout : destinationOutcome db r bu send pc = some (pc.2 ++ " (No link found)") := by
        simp [destinationOutcome, hl]
      rw [hstep, ih]
      simp [hout, List.filterMap_cons, List.filter_cons]
    | some u =>
      cases hs : send pc.1 with
      | ok _ =>
        have hstep : sendStep db r bu send acc pc
            = (acc.1 + 1, acc.2.1, acc.2.2 ++ [pc.1]) := by
          simp [sendStep, hl, hs]
        have hout : destinationOutcome db r bu send pc = none := by
          simp [destinationOutcome, hl, hs]
        rw [hstep, ih]
        simp [hout, List.filterMap_cons, List.filter_cons]
        omega
      | error e =>
        have hstep : sendStep db r bu send acc pc
            = (acc.1, acc.2.1 ++ [pc.2 ++ " (Error: " ++ e ++ ")"], acc.2.2) := by
          simp [sendStep, hl, hs]
        have hout : destinationOutcome db r bu send pc
            = some (pc.2 ++ " (Error: " ++ e ++ ")") := by
          simp [destinationOutcome, hl, hs]
        rw [hstep, ih]
        simp [hout, List.filterMap_cons, List.filter_cons]

/-- The rows one `create_request_links` call inserts, in order: for the i-th
post channel (id, name) a row for the request channel, with the token drawn at
oracle position c + 16 * i. -/
def linkRows (r : String) (choice : Nat → Nat) (now : Nat) :
    Nat → List (String × String) → List RequestLinkRow
  | _, [] => []
  | c, pc :: rest =>
    ⟨r, pc.1, generateToken choice c, pc.2, now⟩ :: linkRows r choice now (c + 16) rest

/-- Every row described by `linkRows` belongs to the generating request channel. -/
lemma linkRows_req (r : String) (choice : Nat → Nat) (now : Nat) :
    ∀ (pcs : List (String × String)) (c : Nat),
      ∀ row ∈ linkRows r choice now c pcs, row.req_channel_id = r := by
  intro pcs
  induction pcs with
  | nil => intro c row hrow; cases hrow
  | cons pc rest ih =>
    intro c row hrow
    rw [linkRows] at hrow
    rcases List.mem_cons.mp hrow with h | h
    · rw [h]
    · exact ih (c + 16) row h

/-- The rows described by `linkRows` list the post-channel ids in enumeration
order. -/
lemma linkRows_post_ids (r : String) (choice : Nat → Nat) (now : Nat) :
    ∀ (pcs : List (String × String)) (c : Nat),
      (linkRows r choice now c pcs).map (fun row => row.post_channel_id)
        = pcs.map Prod.fst := by
  intro pcs
  induction pcs with
  | nil => intro c; rfl
  | cons pc rest ih =>
    intro c
    rw [linkRows]
    simp [ih]

/-- When the freshly drawn tokens collide neither with stored tokens nor with
each other, the `create_request_links` fold appends exactly the `linkRows`
rows (nothing is replaced; the other tables are untouched). -/
lemma create_foldl (r : String) (choice : Nat → Nat) (now : Nat) :
    ∀ (pcs : List (String × String)) (db : DB) (c : Nat),
      (∀ i, i < pcs.length → ∀ row ∈ db.request_links,
          row.link_token ≠ generateToken choice (c + 16 * i)) →
      (∀ i, i < pcs.length → ∀ j, j < pcs.length →
          generateToken choice (c + 16 * i) = generateToken choice (c + 16 * j) → i = j) →
      (pcs.foldl (createLinkStep r choice now) (db, c)).1
        = { db with request_links := db.request_links ++ linkRows r choice now c pcs } := by
  intro pcs
  induction pcs with
  | nil =>
    intro db c _ _
    rw [List.foldl_nil, linkRows, List.append_nil]
  | cons pc rest ih =>
    intro db c hfresh hinj
    rw [List.foldl_cons]
    have hgen0 : generateToken choice (c + 16 * 0) = generateToken choice c := by
      rw [Nat.mul_zero, Nat.add_zero]
    have hstep : createLinkStep r choice now (db, c) pc
        = ({ db with request_links :=
              db.request_links ++ [⟨r, pc.1, generateToken choice c, pc.2, now⟩] }, c + 16) := by
      rw [createLinkStep, DB.insert_request_link]
      have hkeep : db.request_links.filter
          (fun x => x.link_token != generateToken choice c) = db.request_links := by
        rw [List.filter_eq_self]
        intro a ha
        rw [bne_iff_ne]
        have := hfresh 0 (Nat.succ_pos rest.length) a ha
        rw [hgen0] at this
        exact this
      simp [hkeep]
    rw [hstep]
    have hfresh2 : ∀ i, i < rest.length →
        ∀ row ∈ db.request_links ++ [(⟨r, pc.1, generateToken choice c, pc.2, now⟩ : RequestLinkRow)],
          row.link_token ≠ generateToken choice (c + 16 + 16 * i) := by
      intro i hi row hrow
      have heq : c + 16 + 16 * i = c + 16 * (i + 1) := by ring
      rw [heq]
      rcases List.mem_append.mp hrow with hmem | hmem
      · exact hfresh (i + 1) (Nat.succ_lt_succ hi) row hmem
      · rw [List.mem_singleton] at hmem
        rw [hmem]
        intro hcontra
        have h01 : (0 : Nat) = i + 1 := by
          apply hinj 0 (Nat.succ_pos rest.length) (i + 1) (Nat.succ_lt_succ hi)
          rw [hgen0]
          exact hcontra
        omega
    have hinj2 : ∀ i, i < rest.length → ∀ j, j < rest.length →
        generateToken choice (c + 16 + 16 * i) = generateToken choice (c + 16 + 16 * j) →
          i = j := by
      intro i hi j hj hgen
      have heqi : c + 16 + 16 * i = c + 16 * (i + 1) := by ring
      have heqj : c + 16 + 16 * j = c + 16 * (j + 1) := by ring
      rw [heqi, heqj] at hgen
      have := hinj (i + 1) (Nat.succ_lt_succ hi) (j + 1) (Nat.succ_lt_succ hj) hgen
      omega
    rw [ih _ (c + 16) hfresh2 hinj2, linkRows]
    simp

/-- Filtering a list with pairwise distinct keys for the key of one of its
members yields exactly that member. -/
lemma filter_key_singleton {α : Type} (key : α → String) :
    ∀ l : List α, (l.map key).Nodup → ∀ a ∈ l,
      l.filter (fun x => key x == key a) = [a] := by
  intro l
  induction l with
  | nil => intro _ a ha; cases ha
  | cons b bs ih =>
    intro hnd a ha
    rw [List.map_cons, List.nodup_cons] at hnd
    rcases List.mem_cons.mp ha with h | h
    · rw [List.filter_cons]
      rw [h]
      simp only [beq_self_eq_true, if_true]
      have hnil : bs.filter (fun x => key x == key b) = [] := by
        rw [List.filter_eq_nil_iff]
        intro x hx hcontra
        rw [beq_iff_eq] at hcontra
        exact hnd.1 (hcontra ▸ List.mem_map_of_mem key hx)
      rw [hnil]
    · rw [List.filter_cons]
      have hne : (key b == key a) = false := by
        rw [beq_eq_false_iff_ne]
        intro hcontra
        exact hnd.1 (hcontra ▸ List.mem_map_of_mem key h)
      rw [hne]
      simp only [Bool.false_eq_true, if_false]
      exact ih hnd.2 a h

/-- The join of `get_request_links`, applied to one generation of `linkRows`
rows over a post-channel table with distinct ids, yields exactly one entry per
post channel, in enumeration order (projected to the joined channel name). -/
lemma linkRows_join (db : DB) (bu r : String) (choice : Nat → Nat) (now : Nat)
    (hnd : (db.post_channels.map (fun q => q.channel_id)).Nodup) :
    ∀ (pcs : List (String × String)) (c : Nat),
      (∀ pc ∈ pcs, ∃ q ∈ db.post_channels, q.channel_id = pc.1 ∧ q.channel_name = pc.2) →
      ((linkRows r choice now c pcs).flatMap (fun row =>
          (db.post_channels.filter (fun pc => pc.channel_id == row.post_channel_id)).map
            (fun pc =>
              ("https://t.me/" ++ bu ++ "?start=" ++ row.link_token,
               row.link_title, pc.channel_name)))).map (fun e => e.2.2)
        = pcs.map Prod.snd := by
  intro pcs
  induction pcs with
  | nil => intro c _; rfl
  | cons pc rest ih =>
    intro c hexist
    obtain ⟨q, hq, hqid, hqname⟩ := hexist pc (List.mem_cons_self pc rest)
    have hfilter : db.post_channels.filter (fun x => x.channel_id == pc.1) = [q] := by
      have hsingle := filter_key_singleton (fun x : PostChannelRow => x.channel_id)
        db.post_channels hnd q hq
      simpa [hqid] using hsingle
    rw [linkRows, List.flatMap_cons, List.map_append]
    have hrest := ih (c + 16) (fun pc' hpc' => hexist pc' (List.mem_cons_of_mem pc hpc'))
    rw [hrest]
    simp [hfilter, hqname]

/-- Every list element lands either in the `isNone` filter or in the
`filterMap` image, so the two lengths sum to the list length. -/
lemma length_filter_isNone_add_filterMap {α β : Type} (f : α → Option β) :
    ∀ l : List α,
      (l.filter (fun a => (f a).isNone)).length + (l.filterMap f).length = l.length := by
  intro l
  induction l with
  | nil => rfl
  | cons a t ih =>
    cases hf : f a <;> simp [List.filter_cons, List.filterMap_cons, hf] <;> omega

end Bot

namespace Bot

/-! ### Claim theorems -/

/-- Claim C1 (evaluation of the code at the failing input): with one post
channel, calling `create_request_links` twice for the same request channel
leaves TWO live rows for the pair (request, post) — the `INSERT OR REPLACE`
only conflicts on `link_token`, never on the pair — and
`get_request_link_for_post` still returns the token of the FIRST generation, so the
old token stays resolvable, contrary to the replacement semantics the spec
states. -/
theorem c1_regeneration_keeps_old_row :
    ((((DB.empty.add_post_channel "-1001" "ChanA" 0).create_request_links
          "R" "ReqChan" "mybot" (fun n => n) 0 1).1.create_request_links
          "R" "ReqChan" "mybot" (fun n => n)
          ((DB.empty.add_post_channel "-1001" "ChanA" 0).create_request_links
            "R" "ReqChan" "mybot" (fun n => n) 0 1).2.1 2).1.request_links.filter
        (fun row => row.req_channel_id == "R" && row.post_channel_id == "-1001")).length = 2
    ∧ (((DB.empty.add_post_channel "-1001" "ChanA" 0).create_request_links
          "R" "ReqChan" "mybot" (fun n => n) 0 1).1.create_request_links
          "R" "ReqChan" "mybot" (fun n => n)
          ((DB.empty.add_post_channel "-1001" "ChanA" 0).create_request_links
            "R" "ReqChan" "mybot" (fun n => n) 0 1).2.1 2).1.get_request_link_for_post
        "R" "-1001" "mybot" = some "https://t.me/mybot?start=abcdefghijklmnop"
    ∧ (((DB.empty.add_post_channel "-1001" "ChanA" 0).create_request_links
          "R" "ReqChan" "mybot" (fun n => n) 0 1).1.get_request_link_for_post
        "R" "-1001" "mybot" = some "https://t.me/mybot?start=abcdefghijklmnop") := by
  decide

/-- A database holding two post channels, "-1001" ("A") then "-1002" ("B"). -/
def twoChannelDb : DB :=
  (DB.empty.add_post_channel "-1001" "A" 0).add_post_channel "-1002" "B" 1

/-- First link generation for request channel "R" over `twoChannelDb`. -/
def twoChannelGen1 : DB × Nat × Nat :=
  twoChannelDb.create_request_links "R" "ReqChan" "mybot" (fun n => n) 0 2

/-- Second link generation for request channel "R", continuing the random
stream where the first left off. -/
def twoChannelGen2 : DB × Nat × Nat :=
  twoChannelGen1.1.create_request_links "R" "ReqChan" "mybot" (fun n => n) twoChannelGen1.2.1 3

/-- Counterexample to claim C2 as stated: after a second `create_request_links`
call with the post-channel set unchanged (still 2 channels), `get_request_links`
returns 4 entries — two naming post channel "A" — not exactly one entry per
post channel of the latest generation. -/
theorem c2_counterexample :
    (twoChannelGen2.1.get_request_links "R" "mybot").length = 4
    ∧ twoChannelGen2.1.get_post_channels.length = 2
    ∧ ((twoChannelGen2.1.get_request_links "R" "mybot").filter
        (fun e => e.2.2 == "A")).length = 2 := by
  decide

/-- Claim C2 (amended): when `create_request_links` runs for a request channel
that has no stored link rows yet (first generation), over a post-channel table
with distinct ids, and the freshly drawn tokens collide neither with stored
tokens nor with each other, then `get_request_links` afterwards returns
exactly one entry per post channel, in post-channel enumeration order (the
joined channel names in order), and the stored rows for the request channel
list the post-channel ids in the same order. -/
theorem c2_resolve_links_single_generation (db : DB) (r nm bu : String)
    (choice : Nat → Nat) (c now : Nat)
    (h0 : ∀ row ∈ db.request_links, row.req_channel_id ≠ r)
    (hnd : (db.post_channels.map (fun q => q.channel_id)).Nodup)
    (hfresh : ∀ i, i < db.get_post_channels.length → ∀ row ∈ db.request_links,
        row.link_token ≠ generateToken choice (c + 16 * i))
    (hinj : ∀ i, i < db.get_post_channels.length → ∀ j, j < db.get_post_channels.length →
        generateToken choice (c + 16 * i) = generateToken choice (c + 16 * j) → i = j) :
    (((db.create_request_links r nm bu choice c now).1.get_request_links r bu).map
        (fun e => e.2.2)) = db.get_post_channels.map Prod.snd
    ∧ (((db.create_request_links r nm bu choice c now).1.request_links.filter
        (fun row => row.req_channel_id == r)).map (fun row => row.post_channel_id))
        = db.get_post_channels.map Prod.fst := by
  have hdb : (db.create_request_links r nm bu choice c now).1
      = { db with request_links :=
            db.request_links ++ linkRows r choice now c db.get_post_channels } :=
    create_foldl r choice now db.get_post_channels db c hfresh hinj
  have hfilter : (db.request_links ++ linkRows r choice now c db.get_post_channels).filter
      (fun row => row.req_channel_id == r)
        = linkRows r choice now c db.get_post_channels := by
    rw [List.filter_append]
    have hold : db.request_links.filter (fun row => row.req_channel_id == r) = [] := by
      rw [List.filter_eq_nil_iff]
      intro a ha hcontra
      rw [beq_iff_eq] at hcontra
      exact h0 a ha hcontra
    have hnew : (linkRows r choice now c db.get_post_channels).filter
        (fun row => row.req_channel_id == r)
          = linkRows r choice now c db.get_post_channels := by
      rw [List.filter_eq_self]
      intro row hrow
      rw [beq_iff_eq]
      exact linkRows_req r choice now db.get_post_channels c row hrow
    rw [hold, hnew, List.nil_append]
  constructor
  · rw [hdb, DB.get_request_links]
    simp only [hfilter]
    exact linkRows_join db bu r choice now hnd db.get_post_channels c
      (by
        intro pc hpc
        rw [DB.get_post_channels, List.mem_map] at hpc
        obtain ⟨qq, hqq, rfl⟩ := hpc
        exact ⟨qq, hqq, rfl, rfl⟩)
  · rw [hdb]
    simp only [hfilter]
    exact linkRows_post_ids r choice now db.get_post_channels c

/-- Witness for the amended C2 at a concrete first generation over two post
channels: one entry per channel, names in enumeration order, ids in order. -/
theorem c2_witness :
    ((twoChannelDb.create_request_links "R" "ReqChan" "mybot"
        (fun n => n) 0 2).1.get_request_links "R" "mybot").map (fun e => e.2.2) = ["A", "B"]
    ∧ ((twoChannelDb.create_request_links "R" "ReqChan" "mybot"
        (fun n => n) 0 2).1.request_links.filter
        (fun row => row.req_channel_id == "R")).map (fun row => row.post_channel_id)
        = ["-1001", "-1002"] := by
  have h := c2_resolve_links_single_generation twoChannelDb "R" "ReqChan" "mybot"
    (fun n => n) 0 2 (by decide) (by decide) (by decide) (by decide)
  exact ⟨h.1.trans (by decide), h.2.trans (by decide)⟩

/-- Claim C3: after `remove_post_channel id`, no listed post channel carries
`id` and no referral-link row references `id` (cascade delete). -/
theorem c3_remove_cascades (db : DB) (id : String) :
    (((db.remove_post_channel id).get_post_channels.all (fun e => e.1 != id)) = true)
    ∧ (((db.remove_post_channel id).request_links.all
        (fun row => row.post_channel_id != id)) = true) := by
  constructor
  · rw [List.all_eq_true]
    intro e he
    rw [DB.get_post_channels, List.mem_map] at he
    obtain ⟨r, hr, rfl⟩ := he
    rw [DB.remove_post_channel] at hr
    simp only [List.mem_filter] at hr
    exact hr.2
  · rw [List.all_eq_true]
    intro row hrow
    rw [DB.remove_post_channel] at hrow
    simp only [List.mem_filter] at hrow
    exact hrow.2

/-- Claim C5: any non-empty sequence of `add_post_channel` calls with the same
channel id leaves exactly one row for that id, carrying the most recently
supplied name. -/
theorem c5_add_post_channel_upsert (db : DB) (id : String) (calls : List (String × Nat))
    (hne : calls ≠ []) :
    (((calls.foldl (fun d (p : String × Nat) => d.add_post_channel id p.1 p.2) db).post_channels.filter
        (fun r => r.channel_id == id)).map (fun r => r.channel_name))
      = [(calls.getLast hne).1] := by
  induction calls generalizing db with
  | nil => exact absurd rfl hne
  | cons p ps ih =>
    cases ps with
    | nil =>
      rw [List.foldl_cons, List.foldl_nil, DB.add_post_channel]
      simp only [List.filter_append, filter_key_eq_of_ne (fun r : PostChannelRow => r.channel_id) id]
      simp
    | cons q qs =>
      rw [List.foldl_cons, List.getLast_cons (List.cons_ne_nil q qs)]
      exact ih _ (List.cons_ne_nil q qs)

/-- Witness for C5 at a concrete call sequence: re-adding channel id
"-1001" twice leaves one row carrying the last name "B". -/
theorem c5_witness :
    ((([("A", 0), ("B", 1)].foldl
        (fun d (p : String × Nat) => d.add_post_channel "-1001" p.1 p.2) DB.empty).post_channels.filter
        (fun r => r.channel_id == "-1001")).map (fun r => r.channel_name)) = ["B"] := by
  have h := c5_add_post_channel_upsert DB.empty "-1001" [("A", 0), ("B", 1)]
    (by simp)
  simpa using h

/-- Claim C7: every generated token has exactly 16 characters, each drawn from
the 62-symbol alphanumeric alphabet. -/
theorem c7_token_shape (choice : Nat → Nat) (c : Nat) :
    (generateToken choice c).length = 16
    ∧ tokenAlphabet.length = 62
    ∧ ((generateToken choice c).toList.all (fun ch => tokenAlphabet.contains ch)) = true := by
  refine ⟨rfl, rfl, ?_⟩
  · rw [List.all_eq_true]
    intro ch hch
    have hrep : (generateToken choice c).toList
        = (List.range 16).map (fun i =>
            tokenAlphabet.getD (choice (c + i) % tokenAlphabet.length) 'a') := rfl
    rw [hrep, List.mem_map] at hch
    obtain ⟨i, _, rfl⟩ := hch
    have hlt : choice (c + i) % tokenAlphabet.length < tokenAlphabet.length :=
      Nat.mod_lt _ (by decide)
    rw [List.getD_eq_getElem _ _ hlt]
    exact List.elem_eq_true_of_mem (List.getElem_mem hlt)

/-- Claim C8: `create_request_links` returns the current post-channel count,
and with no post channels it returns zero and writes nothing. -/
theorem c8_link_count (db : DB) (r nm bu : String) (choice : Nat → Nat) (c now : Nat) :
    (db.create_request_links r nm bu choice c now).2.2 = db.get_post_channels.length
    ∧ (db.get_post_channels = [] →
        (db.create_request_links r nm bu choice c now).1 = db
        ∧ (db.create_request_links r nm bu choice c now).2.2 = 0) := by
  constructor
  · rfl
  · intro h
    constructor
    · simp [DB.create_request_links, h]
    · simp [DB.create_request_links, h]

/-- Witness for C8 on the empty database: no post channels, so no rows are
written and the count is zero. -/
theorem c8_witness :
    (DB.empty.create_request_links "R" "RN" "mybot" (fun k => k) 0 0).1 = DB.empty
    ∧ (DB.empty.create_request_links "R" "RN" "mybot" (fun k => k) 0 0).2.2 = 0 :=
  (c8_link_count DB.empty "R" "RN" "mybot" (fun k => k) 0 0).2 rfl

/-- Claim C10: when no owner was ever set, `get_owner` is `none` and both
owner-gated commands reject every caller with the unauthorized reply, changing
nothing. -/
theorem c10_absent_owner_rejects_all (db : DB) (h : db.get_owner = none) (uid : String)
    (args : List String) (getChat : String → Except String String) (now : Nat) :
    add_channel db uid args getChat now = (db, ["❌ Only owner can use this command!"])
    ∧ list_channels db uid = (["❌ Only owner can use this command!"], []) := by
  constructor
  · simp [add_channel, h]
  · simp [list_channels, h]

/-- Witness for C10: on the fresh database (owner never set), caller "7" is
rejected by both `/add` and `/list`. -/
theorem c10_witness :
    add_channel DB.empty "7" [] (fun _ => Except.error "e") 0
      = (DB.empty, ["❌ Only owner can use this command!"])
    ∧ list_channels DB.empty "7" = (["❌ Only owner can use this command!"], []) :=
  c10_absent_owner_rejects_all DB.empty rfl "7" [] (fun _ => Except.error "e") 0

/-- Claim C6: an admin invoking `/send` in a channel not registered as a
request channel gets the not-registered reply telling them to register first;
nothing is dispatched and the database is unchanged. -/
theorem c6_send_unregistered_aborts (ctx : SendCtx) (bu : String) (db : DB) (s : String)
    (hchat : channelChatTypes.contains ctx.chat_type = true)
    (hmem : ctx.memberStatus = Except.ok s)
    (hadmin : adminStatuses.contains s = true)
    (hreg : db.get_req_channel ctx.chat_id = none) :
    send_command ctx bu db =
      ⟨["❌ This channel is not registered as a req channel!\nUse /req first to register."],
       [], db⟩ := by
  rw [List.elem_iff] at hchat hadmin
  simp [send_command, hchat, hmem, hadmin, hreg]

/-- Witness for C6: an administrator sending `/send` in group "-100222" on the
fresh database gets the not-registered reply, with no dispatches. -/
theorem c6_witness :
    send_command ⟨"group", "-100222", Except.ok "administrator", fun _ => Except.ok ()⟩
        "mybot" DB.empty
      = ⟨["❌ This channel is not registered as a req channel!\nUse /req first to register."],
         [], DB.empty⟩ :=
  c6_send_unregistered_aborts
    ⟨"group", "-100222", Except.ok "administrator", fun _ => Except.ok ()⟩
    "mybot" DB.empty "administrator" rfl rfl rfl rfl

/-- Claim C4: a broadcast that reaches the dispatch loop attempts every
destination independently — a missing link yields the failure entry
"(No link found)", a dispatch exception yields a failure entry with its error
text, and the outcome of each destination is a function of that destination
alone (`destinationOutcome`); the single final reply is the report built from
the success count and all the failure entries. -/
theorem c4_broadcast_isolates_failures (ctx : SendCtx) (bu : String) (db : DB)
    (s : String) (q : String × String)
    (hchat : channelChatTypes.contains ctx.chat_type = true)
    (hmem : ctx.memberStatus = Except.ok s)
    (hadmin : adminStatuses.contains s = true)
    (hreg : db.get_req_channel ctx.chat_id = some q)
    (hpc : db.get_post_channels ≠ []) :
    (∀ pc ∈ db.get_post_channels,
        db.get_request_link_for_post ctx.chat_id pc.1 bu = none →
        destinationOutcome db ctx.chat_id bu ctx.sendResult pc
          = some (pc.2 ++ " (No link found)"))
    ∧ (∀ pc ∈ db.get_post_channels, ∀ u e,
        db.get_request_link_for_post ctx.chat_id pc.1 bu = some u →
        ctx.sendResult pc.1 = Except.error e →
        destinationOutcome db ctx.chat_id bu ctx.sendResult pc
          = some (pc.2 ++ " (Error: " ++ e ++ ")"))
    ∧ send_command ctx bu db =
        ⟨[buildReport
            ((db.get_post_channels.filter
                (fun pc => (destinationOutcome db ctx.chat_id bu ctx.sendResult pc).isNone)).length)
            (db.get_post_channels.filterMap
              (destinationOutcome db ctx.chat_id bu ctx.sendResult))],
         (db.get_post_channels.filter
            (fun pc => (destinationOutcome db ctx.chat_id bu ctx.sendResult pc).isNone)).map
           Prod.fst,
         db⟩ := by
  refine ⟨?_, ?_, ?_⟩
  · intro pc _ hl
    simp [destinationOutcome, hl]
  · intro pc _ u e hl hs
    simp [destinationOutcome, hl, hs]
  · have hempty : db.get_post_channels.isEmpty = false := by
      cases hpcs : db.get_post_channels with
      | nil => exact absurd hpcs hpc
      | cons a t => rfl
    rw [List.elem_iff] at hchat hadmin
    simp [send_command, hchat, hmem, hadmin, hreg, hempty, sendLoop, sendLoop_foldl]

/-- A sample database for the C4 scenario: post channel "-100111" ("News") has
a referral link from the last generation, post channel "-100333" ("Second")
was added after it and has none. -/
def sampleSendDb : DB :=
  let db1 := ((DB.empty.add_post_channel "-100111" "News" 0).add_req_channel
    "-100222" "ReqChan" 1)
  ((db1.create_request_links "-100222" "ReqChan" "mybot"
    (fun n => n) 0 2).1.add_post_channel "-100333" "Second" 3)

/-- Witness for C4 at the spec scenario: one of two destinations has no link;
the report shows one success and the one failure entry naming that channel, and
the other destination is still dispatched. -/
theorem c4_witness :
    send_command ⟨"channel", "-100222", Except.ok "creator", fun _ => Except.ok ()⟩
        "mybot" sampleSendDb
      = ⟨[buildReport 1 ["Second (No link found)"]], ["-100111"], sampleSendDb⟩ := by
  have h := c4_broadcast_isolates_failures
    ⟨"channel", "-100222", Except.ok "creator", fun _ => Except.ok ()⟩ "mybot" sampleSendDb
    "creator" ("-100222", "ReqChan") rfl rfl rfl (by decide) (by decide)
  exact h.2.2.trans (by decide)

/-- Claim C9: in every run of the dispatch loop, each enumerated post channel
is counted exactly once — the success count plus the number of failure entries
equals the number of destinations enumerated. -/
theorem c9_every_destination_counted_once (db : DB) (r bu : String)
    (send : String → Except String Unit) (pcs : List (String × String)) :
    (sendLoop db r bu send pcs).1 + (sendLoop db r bu send pcs).2.1.length = pcs.length := by
  rw [sendLoop, sendLoop_foldl]
  simp only [Nat.zero_add, List.nil_append]
  exact length_filter_isNone_add_filterMap _ pcs

end Bot
